import Mathlib

/-
Verification development for the riven-tui repository: a shallow embedding of
the application event loop, screen state machine and event-stream pipeline
(pkg/tui, pkg/api) in Lean 4, with theorems checking the natural-language
specification against the embedded code.

Conventions used throughout:
- Go `int` is embedded as `Int`; Go `string` as `String`.
- Go pointers that may be nil (`*ItemsResponse`, `error`, ...) are `Option _`.
- `tea.Cmd` values are the `Cmd` inductive below; `tea.Batch` is list
  concatenation and a nil `tea.Cmd` contributes nothing to the list.
- Styling (lipgloss) is pure string decoration and cannot fail; the view
  embeddings keep the branch structure and the partial string operations
  (Go slicing `s[:k]`, which panics out of range, becomes `goSlice`) and
  drop the decoration.
-/

namespace RivenTUI

/-- JSON value, the model of Go `encoding/json` values decoded from the
event stream (`json.Unmarshal` in `Client.StreamEventsSSE`). -/
inductive Json where
  | jstr  : String → Json
  | jnum  : String → Json
  | jbool : Bool → Json
  | jnull : Json
  | jarr  : List Json → Json
  | jobj  : List (String × Json) → Json

/-- Stream event, embedding `models.Event` (pkg/models, part_002): fields
`Type`, `Timestamp`, `Data map[string]interface\x7b\x7d`, `Message`.  The Go
nil map and the empty map are both embedded as `[]`. -/
structure Event where
  type      : String := ""
  timestamp : String := ""
  data      : List (String × Json) := []
  message   : String := ""

/-- Go `strings.HasPrefix`, on character lists for definitional evaluation. -/
def goHasPre (s pre : String) : Bool :=
  pre.toList.isPrefixOf s.toList

/-- Go `strings.TrimPrefix`. -/
def goTrimPre (s pre : String) : String :=
  if goHasPre s pre then String.mk (s.toList.drop pre.toList.length) else s

/-- Whitespace skipping of the JSON scanner. -/
def skipWs : List Char → List Char
  | [] => []
  | c :: cs => if c = ' ' ∨ c = '\t' ∨ c = '\n' ∨ c = '\r' then skipWs cs else c :: cs

/-- Parse the body of a JSON string literal (after the opening quote),
returning the decoded characters and the rest of the input.  The escape
subset covers the escapes the repository's payloads use. -/
def parseStrBody : Nat → List Char → Option (List Char × List Char)
  | 0, _ => none
  | _ + 1, [] => none
  | fuel + 1, c :: cs =>
    if c = '"' then some ([], cs)
    else if c = '\\' then
      match cs with
      | [] => none
      | e :: cs2 =>
        let esc : Option Char :=
          if e = '"' then some '"'
          else if e = '\\' then some '\\'
          else if e = '/' then some '/'
          else if e = 'n' then some '\n'
          else if e = 't' then some '\t'
          else if e = 'r' then some '\r'
          else none
        match esc with
        | none => none
        | some ch =>
          match parseStrBody fuel cs2 with
          | none => none
          | some (body, rest) => some (ch :: body, rest)
    else
      match parseStrBody fuel cs with
      | none => none
      | some (body, rest) => some (c :: body, rest)

/-- Lex a JSON number (sign, integer part, optional fraction and exponent);
the lexeme is kept as a string, which is all the event pipeline needs. -/
def parseNumLex (cs : List Char) : Option (List Char × List Char) :=
  let (sign, cs1) :=
    match cs with
    | '-' :: r => (['-'], r)
    | _ => (([] : List Char), cs)
  let (intPart, cs2) := cs1.span Char.isDigit
  if intPart.isEmpty then none
  else
    let (fracPart, cs3) :=
      match cs2 with
      | '.' :: r =>
        let (ds, r2) := r.span Char.isDigit
        if ds.isEmpty then (([] : List Char), cs2) else ('.' :: ds, r2)
      | _ => (([] : List Char), cs2)
    let (expPart, cs4) :=
      match cs3 with
      | 'e' :: r =>
        let (sgn, r1) := match r with | '+' :: r2 => (['+'], r2) | '-' :: r2 => (['-'], r2) | _ => (([] : List Char), r)
        let (ds, r2) := r1.span Char.isDigit
        if ds.isEmpty then (([] : List Char), cs3) else ('e' :: (sgn ++ ds), r2)
      | 'E' :: r =>
        let (sgn, r1) := match r with | '+' :: r2 => (['+'], r2) | '-' :: r2 => (['-'], r2) | _ => (([] : List Char), r)
        let (ds, r2) := r1.span Char.isDigit
        if ds.isEmpty then (([] : List Char), cs3) else ('E' :: (sgn ++ ds), r2)
      | _ => (([] : List Char), cs3)
    some (sign ++ intPart ++ fracPart ++ expPart, cs4)

/-- Parse the members of a JSON object after the opening brace, with the
value sub-parse supplied as a function (so the recursion stays structural
in the fuel). -/
def parseMembersWith (pv : List Char → Option (Json × List Char)) :
    Nat → List Char → Option (List (String × Json) × List Char)
  | 0, _ => none
  | fuel + 1, cs =>
    match skipWs cs with
    | '}' :: rest => some ([], rest)
    | '"' :: rest =>
      match parseStrBody (rest.length + 1) rest with
      | none => none
      | some (key, rest2) =>
        match skipWs rest2 with
        | ':' :: rest3 =>
          match pv rest3 with
          | none => none
          | some (v, rest4) =>
            match skipWs rest4 with
            | ',' :: rest5 =>
              match parseMembersWith pv fuel rest5 with
              | none => none
              | some ([], _) => none
              | some (ms, rest6) => some ((String.mk key, v) :: ms, rest6)
            | '}' :: rest5 => some ([(String.mk key, v)], rest5)
            | _ => none
        | _ => none
    | _ => none

/-- Parse the elements of a JSON array after the opening bracket. -/
def parseElemsWith (pv : List Char → Option (Json × List Char)) :
    Nat → List Char → Option (List Json × List Char)
  | 0, _ => none
  | fuel + 1, cs =>
    match pv cs with
    | none => none
    | some (v, rest) =>
      match skipWs rest with
      | ',' :: rest2 =>
        match parseElemsWith pv fuel rest2 with
        | none => none
        | some (vs, rest3) => some (v :: vs, rest3)
      | ']' :: rest2 => some ([v], rest2)
      | _ => none

/-- Recursive-descent JSON value parse with fuel. -/
def parseVal : Nat → List Char → Option (Json × List Char)
  | 0, _ => none
  | fuel + 1, cs0 =>
    match skipWs cs0 with
    | [] => none
    | '"' :: rest =>
      match parseStrBody (rest.length + 1) rest with
      | none => none
      | some (body, rest2) => some (Json.jstr (String.mk body), rest2)
    | '{' :: rest =>
      match parseMembersWith (parseVal fuel) (rest.length + 1) rest with
      | none => none
      | some (ms, rest2) => some (Json.jobj ms, rest2)
    | '[' :: rest =>
      match skipWs rest with
      | ']' :: rest2 => some (Json.jarr [], rest2)
      | _ =>
        match parseElemsWith (parseVal fuel) (rest.length + 1) rest with
        | none => none
        | some (vs, rest2) => some (Json.jarr vs, rest2)
    | 't' :: rest =>
      if ['r', 'u', 'e'].isPrefixOf rest then some (Json.jbool true, rest.drop 3) else none
    | 'f' :: rest =>
      if ['a', 'l', 's', 'e'].isPrefixOf rest then some (Json.jbool false, rest.drop 4) else none
    | 'n' :: rest =>
      if ['u', 'l', 'l'].isPrefixOf rest then some (Json.jnull, rest.drop 3) else none
    | cs =>
      match parseNumLex cs with
      | none => none
      | some (lex, rest) => some (Json.jnum (String.mk lex), rest)

/-- Apply one decoded object member to an `Event` being built, the model of
how `json.Unmarshal` fills `models.Event`: a present field of the wrong type
is a decode error, JSON null leaves the field at its zero value, unknown
members are ignored.  (Go also matches field names case-insensitively as a
fallback; the repository's stream payloads use the exact lowercase tags, so
the embedding matches tags exactly.) -/
def applyEventField (e : Event) : String × Json → Option Event
  | ("type", Json.jstr s) => some { e with type := s }
  | ("type", Json.jnull) => some e
  | ("type", _) => none
  | ("timestamp", Json.jstr s) => some { e with timestamp := s }
  | ("timestamp", Json.jnull) => some e
  | ("timestamp", _) => none
  | ("data", Json.jobj m) => some { e with data := m }
  | ("data", Json.jnull) => some { e with data := [] }
  | ("data", _) => none
  | ("message", Json.jstr s) => some { e with message := s }
  | ("message", Json.jnull) => some e
  | ("message", _) => none
  | (_, _) => some e

/-- Fold all object members into an event. -/
def applyEventFields : Event → List (String × Json) → Option Event
  | e, [] => some e
  | e, f :: fs =>
    match applyEventField e f with
    | none => none
    | some e2 => applyEventFields e2 fs

/-- Unmarshal a top-level JSON value into `models.Event`: an object fills
the tagged fields, `null` succeeds leaving the zero value (as `json.Unmarshal`
does), anything else is a type error. -/
def jsonToEvent : Json → Option Event
  | Json.jobj fields => applyEventFields {} fields
  | Json.jnull => some {}
  | _ => none

/-- Decode one `data:` payload exactly as `json.Unmarshal([]byte(data), &event)`
in `Client.StreamEventsSSE` (part_005): the payload must be one JSON value
followed only by whitespace, and must fit the `models.Event` shape. -/
def decodeEvent (s : String) : Option Event :=
  let cs := s.toList
  match parseVal (cs.length + 1) cs with
  | none => none
  | some (j, rest) => if (skipWs rest).isEmpty then jsonToEvent j else none

/-- Line loop of `Client.StreamEventsSSE` (part_005 lines 929-946): scan the
response line by line; a line with prefix `data: ` is trimmed and JSON-decoded,
a successful decode is delivered (in order) and a failed decode or any other
line is skipped and the loop continues.  The returned list is the sequence of
events handed to the delivery channel. -/
def streamEventsSSE : List String → List Event
  | [] => []
  | line :: rest =>
    if goHasPre line "data: " then
      match decodeEvent (goTrimPre line "data: ") with
      | some e => e :: streamEventsSSE rest
      | none => streamEventsSSE rest
    else streamEventsSSE rest

/-- Screen identifier (part_004 `Screen`). -/
inductive Screen where
  | dashboard
  | items
  | itemDetail
  | settings
  | logs
  | help
  deriving DecidableEq, Repr

/-- Sort orders for media items (part_002 `SortOrder`). -/
inductive SortOrder where
  | dateDesc
  | dateAsc
  | titleAsc
  | titleDesc
  deriving DecidableEq, Repr

/-- One media item of the paginated listing: `map[string]interface\x7b\x7d`. -/
abbrev ItemMap := List (String × Json)

/-- Paginated items response (pkg/models/items.go `ItemsResponse`). -/
structure ItemsResponse where
  success    : Bool := false
  items      : List ItemMap := []
  page       : Int := 0
  limit      : Int := 0
  totalItems : Int := 0
  totalPages : Int := 0

/-- Available-states response (pkg/models/stats.go `StateResponse`). -/
structure StateResponse where
  success : Bool := false
  states  : List String := []

/-- Logs response (pkg/models/stats.go `LogsResponse`). -/
structure LogsResponse where
  logs : List String := []

/-- System statistics response (pkg/models/stats.go `StatsResponse`); the
Go maps (`IncompleteRetries`, `States`) are association lists whose lookup
defaults to 0, like Go map indexing. -/
structure StatsResponse where
  totalItems        : Int := 0
  totalMovies       : Int := 0
  totalShows        : Int := 0
  totalSeasons      : Int := 0
  totalEpisodes     : Int := 0
  totalSymlinks     : Int := 0
  incompleteItems   : Int := 0
  incompleteRetries : List (String × Int) := []
  states            : List (String × Int) := []

/-- Services status response (pkg/models/stats.go
`ServicesResponse = map[string]bool`); the nilable map is wrapped in
`Option` at its use sites. -/
abbrev ServicesResponse := List (String × Bool)

/-- Real-Debrid user (pkg/models/stats.go `RDUser`); the Go field `Type`
is `usertype` here (`type` is reserved). -/
structure RDUser where
  id       : Int := 0
  username : String := ""
  email    : String := ""
  points   : Int := 0
  locale   : String := ""
  avatar   : String := ""
  usertype : String := ""
  premium  : Int := 0

/-- Optional query parameters of `Client.GetItems` (part_005 `ItemsParams`),
restricted to the fields the item list screen sets. -/
structure ItemsParams where
  limit  : Option Int := none
  page   : Option Int := none
  states : Option String := none
  sort   : Option SortOrder := none
  search : Option String := none
  deriving DecidableEq, Repr

/-- Message delivered to the application loop: the `tea.Msg` values the
embedded screens produce and consume.  `key` carries `tea.KeyMsg.String()`;
each fetch-result message carries the payload pointer and the error of the
corresponding Go message struct (part_004, items.go, settings.go, part_003,
item_detail.go). -/
inductive Msg where
  | window (w h : Int)
  | key (k : String)
  | refresh
  | itemsRes (items : Option ItemsResponse) (err : Option String)
  | statesRes (states : Option StateResponse) (err : Option String)
  | logsRes (logs : Option LogsResponse) (err : Option String)
  | settingsRes (settings : Option Json) (err : Option String)
  | itemDetailRes (itemData : Option ItemMap) (err : Option String)
  | itemStreamsRes (streams : Option Json) (err : Option String)
  | showItemDetail (itemID : String)
  | statsRes (stats : Option StatsResponse) (err : Option String)
  | servicesRes (services : Option ServicesResponse) (err : Option String)
  | rdUserRes (rdUser : Option RDUser) (err : Option String)
  | eventArrived (e : Event)
  | eventsError (err : String)

/-- Asynchronous operation (`tea.Cmd`).  A `tea.Batch` of commands is the
list of its non-nil members; `tick s m` is `tea.Tick` of `s` seconds whose
firing delivers the message `m`; `navigateDetail id` is `showItemDetailCmd`;
`blink` is the text input's cursor-blink command; `quitApp` is `tea.Quit`;
`enterAltScreen` is `tea.EnterAltScreen`. -/
inductive Cmd where
  | fetchItems (params : ItemsParams)
  | fetchStates
  | fetchLogs
  | fetchSettings
  | fetchItemDetail (id : String)
  | fetchItemStreams (id : String)
  | fetchStats
  | fetchServices
  | fetchRDUser
  | tick (seconds : Int) (fires : Msg)
  | navigateDetail (id : String)
  | blink
  | quitApp
  | enterAltScreen
  | startStreaming
  | listenForEvents

/-- Is this command a timer operation? -/
def Cmd.isTick : Cmd → Bool
  | Cmd.tick _ _ => true
  | _ => false

/-- Go string slicing `s[:k]`, which panics when `k` is out of range:
embedded as a partial operation.  (Byte indices and rune indices agree on
the call sites proved about, which slice ASCII text.) -/
def goSlice (s : String) (k : Int) : Option String :=
  if 0 ≤ k ∧ k ≤ (s.toList.length : Int) then some (String.mk (s.toList.take k.toNat)) else none

/-- Helper `getStringFromMap` (items.go lines 418-426): a present string
value is returned as is, a present non-string value is `fmt.Sprintf`-ed
(embedded as a stand-in rendering), an absent key gives the default. -/
def getStringFromMap (m : ItemMap) (key defaultValue : String) : String :=
  match m.lookup key with
  | some (Json.jstr s) => s
  | some _ => "<value>"
  | none => defaultValue

/-- Helper `truncateString` (items.go lines 428-433).  The Go slice
`s[:maxLen-3]` is in range exactly because of the `len(s) <= maxLen` guard
at every call site `maxLen ≥ 3`. -/
def truncateString (s : String) (maxLen : Nat) : String :=
  if s.toList.length ≤ maxLen then s
  else String.mk (s.toList.take (maxLen - 3)) ++ "..."

/-
External widget models.  The bubbles text input, table and viewport are
external collaborators; the embedding keeps just their data contract:
- the text input accumulates typed printable keys into its value
  (its `Update` returns no follow-up command in the embedding);
- the table owns rows and a cursor and moves the cursor only on its
  cursor bindings (`up`/`k`, `down`/`j`); every key outside the modelled
  binding set leaves it unchanged, which is in particular true of the
  keys the claims exercise (`n`, `p`, `left`, `right`, digits), and its
  `Update` never returns a command;
- the viewport only stores its content and dimensions here.
-/

/-- Text-entry widget state (bubbles `textinput.Model`). -/
structure TextInput where
  value   : String := ""
  focused : Bool := false
  width   : Int := 0
  deriving DecidableEq, Repr

/-- Model of `textinput.Model.Update` on one key: printable single-rune keys
are inserted, backspace deletes, other keys leave the value unchanged. -/
def TextInput.update (ti : TextInput) (k : String) : TextInput :=
  if k.toList.length = 1 then { ti with value := ti.value ++ k }
  else if k = "backspace" then { ti with value := String.mk (ti.value.toList.dropLast) }
  else ti

/-- Table widget state (bubbles `table.Model`). -/
structure TableW where
  rows   : List (List String) := []
  cursor : Nat := 0
  height : Int := 0

/-- Model of `table.Model.Update` on one key (cursor bindings only). -/
def TableW.update (t : TableW) (k : String) : TableW :=
  if k = "up" ∨ k = "k" then { t with cursor := t.cursor - 1 }
  else if k = "down" ∨ k = "j" then
    { t with cursor := min (t.cursor + 1) (t.rows.length - 1) }
  else t

/-- Viewport widget state (bubbles `viewport.Model`). -/
structure Viewport where
  width   : Int := 0
  height  : Int := 0
  content : String := ""

/-- Media items screen state (items.go `ItemsModel`). -/
structure ItemsModel where
  width         : Int := 0
  height        : Int := 0
  loading       : Bool := false
  error         : String := ""
  items         : Option ItemsResponse := none
  states        : Option StateResponse := none
  table         : TableW := {}
  searchInput   : TextInput := {}
  currentPage   : Int := 1
  pageSize      : Int := 50
  searchQuery   : String := ""
  filterState   : String := ""
  sortOrder     : SortOrder := SortOrder.dateDesc
  showSearch    : Bool := false
  lastUpdate    : Nat := 0
  selectedItems : List String := []
  showActions   : Bool := false

/-- Constructor `NewItemsModel` (items.go lines 64-109). -/
def NewItemsModel : ItemsModel :=
  { loading := true
    table := { height := 20 }
    searchInput := { width := 50 }
    currentPage := 1
    pageSize := 50
    sortOrder := SortOrder.dateDesc }

/-- `ItemsModel.SetSize` (items.go lines 112-121). -/
def ItemsModel.setSize (m : ItemsModel) (width height : Int) : ItemsModel :=
  { m with
    width := width
    height := height - 3
    table := { m.table with height := (height - 3) - 10 }
    searchInput := { m.searchInput with width := min (width - 20) 80 } }

/-- Query parameters built by `ItemsModel.fetchItems` (items.go lines 443-458):
limit, page and sort always, search and states only when non-empty. -/
def ItemsModel.fetchItemsParams (m : ItemsModel) : ItemsParams :=
  { limit := some m.pageSize
    page := some m.currentPage
    sort := some m.sortOrder
    search := if m.searchQuery ≠ "" then some m.searchQuery else none
    states := if m.filterState ≠ "" then some m.filterState else none }

/-- The `fetchItems` command at the model's current parameters. -/
def ItemsModel.fetchItems (m : ItemsModel) : Cmd :=
  Cmd.fetchItems m.fetchItemsParams

/-- `ItemsModel.Init` (items.go lines 124-130): fetch the item page, fetch
the available states, and arm the 30-second auto-refresh timer. -/
def ItemsModel.initCmds (m : ItemsModel) : List Cmd :=
  [m.fetchItems, Cmd.fetchStates, Cmd.tick 30 Msg.refresh]

/-- One table row of `ItemsModel.updateTable` (items.go lines 388-411); the
date re-formatting of `updated_at` is display-only and abstracted. -/
def itemRow (item : ItemMap) : List String :=
  [getStringFromMap item "id" "",
   truncateString (getStringFromMap item "title" "Unknown") 38,
   getStringFromMap item "type" "",
   getStringFromMap item "state" "",
   getStringFromMap item "year" "",
   getStringFromMap item "updated_at" ""]

/-- `ItemsModel.updateTable` (items.go lines 381-415). -/
def ItemsModel.updateTable (m : ItemsModel) : ItemsModel :=
  match m.items with
  | none => { m with table := { m.table with rows := [] } }
  | some r =>
    if r.items.isEmpty then { m with table := { m.table with rows := [] } }
    else { m with table := { m.table with rows := r.items.map itemRow } }

/-- Numeric value of a direct-page-jump key (`strconv.Atoi` on "1".."9"). -/
def digitVal : String → Option Int
  | "1" => some 1
  | "2" => some 2
  | "3" => some 3
  | "4" => some 4
  | "5" => some 5
  | "6" => some 6
  | "7" => some 7
  | "8" => some 8
  | "9" => some 9
  | _ => none

/-- Filter cycle of the `f` key (items.go lines 217-230). -/
def nextFilterState (fs : String) : String :=
  if fs = "" then "Failed"
  else if fs = "Failed" then "Completed"
  else if fs = "Completed" then "Downloaded"
  else ""

/-- Sort cycle of the `s` key (items.go lines 232-246). -/
def nextSortOrder : SortOrder → SortOrder
  | SortOrder.dateDesc => SortOrder.dateAsc
  | SortOrder.dateAsc => SortOrder.titleAsc
  | SortOrder.titleAsc => SortOrder.titleDesc
  | SortOrder.titleDesc => SortOrder.dateDesc

/-- `ItemsModel.Update` (items.go lines 133-276).  `now` is the wall clock
read by `time.Now()` on a refresh tick.  Keys not handled by an early
`return` fall through to the table widget's update, exactly as in the
source. -/
def ItemsModel.update (now : Nat) (m : ItemsModel) : Msg → ItemsModel × List Cmd
  | Msg.itemsRes items err =>
    let m1 := { m with loading := false }
    match err with
    | some e => ({ m1 with error := "Failed to fetch items: " ++ e }, [])
    | none => (ItemsModel.updateTable { m1 with items := items, error := "" }, [])
  | Msg.statesRes states err =>
    match err with
    | some _ => (m, [])
    | none => ({ m with states := states }, [])
  | Msg.refresh =>
    let m1 := { m with lastUpdate := now }
    (m1, [m1.fetchItems, Cmd.fetchStates, Cmd.tick 30 Msg.refresh])
  | Msg.key k =>
    if m.showSearch then
      if k = "enter" then
        let m1 := { m with searchQuery := m.searchInput.value, showSearch := false, currentPage := 1 }
        (m1, [m1.fetchItems])
      else if k = "esc" then
        ({ m with showSearch := false, searchInput := { m.searchInput with value := "" } }, [])
      else
        ({ m with searchInput := m.searchInput.update k }, [])
    else
      let fallthru := ({ m with table := m.table.update k }, ([] : List Cmd))
      if k = "/" ∨ k = "ctrl+f" then
        ({ m with showSearch := true, searchInput := { m.searchInput with focused := true } }, [Cmd.blink])
      else if k = "r" then
        let m1 := { m with loading := true }
        (m1, [m1.fetchItems])
      else if k = "n" ∨ k = "right" then
        match m.items with
        | some r =>
          if m.currentPage < r.totalPages then
            let m1 := { m with currentPage := m.currentPage + 1, loading := true }
            (m1, [m1.fetchItems])
          else fallthru
        | none => fallthru
      else if k = "p" ∨ k = "left" then
        if m.currentPage > 1 then
          let m1 := { m with currentPage := m.currentPage - 1, loading := true }
          (m1, [m1.fetchItems])
        else fallthru
      else if (digitVal k).isSome then
        match digitVal k, m.items with
        | some page, some r =>
          if page ≤ r.totalPages then
            let m1 := { m with currentPage := page, loading := true }
            (m1, [m1.fetchItems])
          else fallthru
        | _, _ => fallthru
      else if k = "a" then
        ({ m with showActions := !m.showActions }, [])
      else if k = "f" then
        let m1 := { m with filterState := nextFilterState m.filterState, currentPage := 1, loading := true }
        (m1, [m1.fetchItems])
      else if k = "s" then
        let m1 := { m with sortOrder := nextSortOrder m.sortOrder, currentPage := 1, loading := true }
        (m1, [m1.fetchItems])
      else if k = "c" then
        let m1 := { m with searchQuery := "", filterState := "", sortOrder := SortOrder.dateDesc,
                           currentPage := 1, loading := true }
        (m1, [m1.fetchItems])
      else if k = "enter" then
        match m.items with
        | some r =>
          if 0 < r.items.length ∧ m.table.cursor < r.items.length then
            let item := r.items.getD m.table.cursor []
            let itemID := getStringFromMap item "id" ""
            if itemID ≠ "" then (m, [Cmd.navigateDetail itemID]) else fallthru
          else fallthru
        | none => fallthru
      else fallthru
  | _ => (m, [])

/-- Table rendering stand-in (rows joined; decoration dropped). -/
def TableW.view (t : TableW) : String :=
  String.intercalate "\n" (t.rows.map (fun r => String.intercalate " | " r))

/-- Display name of a sort order (items.go lines 342-352, arrows dropped). -/
def sortName : SortOrder → String
  | SortOrder.dateDesc => "Date desc"
  | SortOrder.dateAsc => "Date asc"
  | SortOrder.titleAsc => "Title asc"
  | SortOrder.titleDesc => "Title desc"

/-- `ItemsModel.renderItems` (items.go lines 313-378): search bar or search
info, the table, status/pagination (only when a page is loaded) and the
actions panel. -/
def ItemsModel.renderItems (m : ItemsModel) : String :=
  let search : String :=
    if m.showSearch then "Search: " ++ m.searchInput.value
    else if m.searchQuery ≠ "" then "Search: " ++ m.searchQuery
    else ""
  let status : String :=
    match m.items with
    | some r =>
      (if m.filterState ≠ "" then "Filter: " ++ m.filterState ++ " | " else "")
        ++ "Sort: " ++ sortName m.sortOrder
        ++ " | Page " ++ toString m.currentPage ++ "/" ++ toString r.totalPages
        ++ " | " ++ toString r.totalItems ++ " items"
    | none => ""
  let actions : String := if m.showActions then "Actions: retry reset delete pause unpause" else ""
  String.intercalate "\n" [search, m.table.view, status, actions]

/-- `ItemsModel.View` (items.go lines 279-289): exactly one of loading,
error or content. -/
def ItemsModel.view (m : ItemsModel) : String :=
  if m.loading then "Loading media items..."
  else if m.error ≠ "" then "Error: " ++ m.error ++ "\n\nPress r to refresh"
  else m.renderItems

/-- Settings screen state (settings.go `SettingsModel`); the untyped
`settings interface\x7b\x7d` payload is a `Json` value. -/
structure SettingsModel where
  width      : Int := 0
  height     : Int := 0
  loading    : Bool := false
  error      : String := ""
  settings   : Option Json := none
  lastUpdate : Nat := 0

/-- Constructor `NewSettingsModel` (settings.go lines 36-42). -/
def NewSettingsModel : SettingsModel :=
  { loading := true }

/-- `SettingsModel.SetSize` (settings.go lines 45-48). -/
def SettingsModel.setSize (m : SettingsModel) (width height : Int) : SettingsModel :=
  { m with width := width, height := height - 3 }

/-- `SettingsModel.Init` (settings.go lines 51-56): fetch settings and arm
the 60-second auto-refresh timer. -/
def SettingsModel.initCmds (_ : SettingsModel) : List Cmd :=
  [Cmd.fetchSettings, Cmd.tick 60 Msg.refresh]

/-- `SettingsModel.Update` (settings.go lines 59-86). -/
def SettingsModel.update (now : Nat) (m : SettingsModel) : Msg → SettingsModel × List Cmd
  | Msg.settingsRes s err =>
    let m1 := { m with loading := false }
    match err with
    | some e => ({ m1 with error := "Failed to fetch settings: " ++ e }, [])
    | none => ({ m1 with settings := s, error := "" }, [])
  | Msg.refresh =>
    ({ m with lastUpdate := now }, [Cmd.fetchSettings, Cmd.tick 60 Msg.refresh])
  | Msg.key k =>
    if k = "r" then ({ m with loading := true }, [Cmd.fetchSettings]) else (m, [])
  | _ => (m, [])

/-- Category names iterated by `renderSettings` (settings.go line 139). -/
def settingsCategories : List String :=
  ["general", "scraping", "content", "downloaders", "indexers"]

/-- One category's contribution to the overview of `renderSettings`
(settings.go lines 139-147); the Go slice `category[:1]` is the partial
`goSlice` here, and a failing slice propagates as `none` (a panic). -/
def settingsOverviewStep (settingsMap : List (String × Json)) (category : String)
    (acc : Option (List String)) : Option (List String) :=
  match acc with
  | none => none
  | some lines =>
    match settingsMap.lookup category with
    | some (Json.jobj categoryMap) =>
      match goSlice category 1 with
      | none => none
      | some c1 =>
        some (("- " ++ c1.toUpper ++ String.mk (category.toList.drop 1) ++ ": "
                ++ toString categoryMap.length ++ " settings configured") :: lines)
    | _ => some lines

/-- Per-category overview lines of `renderSettings` (settings.go lines
139-147). -/
def settingsOverview (settingsMap : List (String × Json)) : Option (List String) :=
  settingsCategories.foldr (settingsOverviewStep settingsMap) (some [])

/-- `SettingsModel.renderSettings` (settings.go lines 123-184). -/
def SettingsModel.renderSettings (m : SettingsModel) : Option String :=
  match m.settings with
  | some (Json.jobj settingsMap) =>
    match settingsOverview settingsMap with
    | none => none
    | some lines =>
      some (String.intercalate "\n" ("Current Settings Overview:" :: lines))
  | some _ => some "Settings loaded successfully!"
  | none => some "No settings data available.\n\nPress r to refresh."

/-- `SettingsModel.View` (settings.go lines 89-99). -/
def SettingsModel.view (m : SettingsModel) : Option String :=
  if m.loading then some "Loading settings..."
  else if m.error ≠ "" then some ("Error: " ++ m.error ++ "\n\nPress r to refresh")
  else m.renderSettings

/-- Logs screen state (part_003 `LogsModel`). -/
structure LogsModel where
  width    : Int := 0
  height   : Int := 0
  loading  : Bool := false
  error    : String := ""
  logs     : Option LogsResponse := none
  viewport : Viewport := {}

/-- Constructor `NewLogsModel` (part_003 lines 31-44). -/
def NewLogsModel : LogsModel :=
  { loading := true, viewport := { width := 80, height := 20 } }

/-- `LogsModel.SetSize` (part_003 lines 47-54). -/
def LogsModel.setSize (m : LogsModel) (width height : Int) : LogsModel :=
  { m with width := width, height := height - 3,
           viewport := { m.viewport with width := width - 8, height := height - 10 } }

/-- `LogsModel.Init` (part_003 lines 57-59). -/
def LogsModel.initCmds (_ : LogsModel) : List Cmd :=
  [Cmd.fetchLogs]

/-- `LogsModel.updateViewport` (part_003 lines 160-172); scrolling position
is widget state and abstracted. -/
def LogsModel.updateViewport (m : LogsModel) : LogsModel :=
  match m.logs with
  | none => m
  | some l => { m with viewport := { m.viewport with content := String.intercalate "\n" l.logs } }

/-- `LogsModel.Update` (part_003 lines 62-88); the viewport update on every
message is the identity in the widget model. -/
def LogsModel.update (m : LogsModel) : Msg → LogsModel × List Cmd
  | Msg.key k =>
    if k = "r" then ({ m with loading := true }, [Cmd.fetchLogs]) else (m, [])
  | Msg.logsRes logs err =>
    let m1 := { m with loading := false }
    match err with
    | some e => ({ m1 with error := "Failed to fetch logs: " ++ e }, [])
    | none => LogsModel.updateViewport { m1 with logs := logs, error := "" }
      |> (fun m2 => (m2, []))
  | _ => (m, [])

/-- `LogsModel.View` (part_003 lines 91-101). -/
def LogsModel.view (m : LogsModel) : String :=
  if m.loading then "Loading logs..."
  else if m.error ≠ "" then "Error: " ++ m.error ++ "\n\nPress r to refresh"
  else "System Logs\n" ++ m.viewport.content

/-- Help screen state (help.go `HelpModel`); its content is static. -/
structure HelpModel where
  width  : Int := 0
  height : Int := 0

/-- `HelpModel.SetSize` (help.go lines 23-26). -/
def HelpModel.setSize (m : HelpModel) (width height : Int) : HelpModel :=
  { m with width := width, height := height - 3 }

/-- `HelpModel.View` (help.go): static help text, abbreviated. -/
def HelpModel.view (_ : HelpModel) : String :=
  "Help and Keyboard Shortcuts"

/-- Item detail screen state (item_detail.go `ItemDetailModel`). -/
structure ItemDetailModel where
  width        : Int := 0
  height       : Int := 0
  loading      : Bool := false
  error        : String := ""
  itemID       : String := ""
  itemData     : Option ItemMap := none
  streams      : Option Json := none
  activeTab    : Int := 0
  streamsTable : TableW := {}
  lastUpdate   : Nat := 0

/-- Constructor `NewItemDetailModel` (item_detail.go lines 54-89). -/
def NewItemDetailModel (itemID : String) : ItemDetailModel :=
  { itemID := itemID, loading := true, streamsTable := { height := 15 } }

/-- `ItemDetailModel.SetSize` (item_detail.go lines 92-98). -/
def ItemDetailModel.setSize (m : ItemDetailModel) (width height : Int) : ItemDetailModel :=
  { m with width := width, height := height - 3,
           streamsTable := { m.streamsTable with height := (height - 3) - 15 } }

/-- `ItemDetailModel.Init` (item_detail.go lines 101-107): fetch the item,
fetch its streams, arm the 30-second auto-refresh timer. -/
def ItemDetailModel.initCmds (m : ItemDetailModel) : List Cmd :=
  [Cmd.fetchItemDetail m.itemID, Cmd.fetchItemStreams m.itemID, Cmd.tick 30 Msg.refresh]

/-- `ItemDetailModel.updateStreamsTable` (item_detail.go lines 378-384): the
stream data is not yet parsed; a fixed sample row is installed. -/
def ItemDetailModel.updateStreamsTable (m : ItemDetailModel) : ItemDetailModel :=
  { m with streamsTable :=
      { m.streamsTable with rows := [["Sample Stream", "1080p", "2.5GB", "Yes", "100"]] } }

/-- `ItemDetailModel.Update` (item_detail.go lines 110-178).  Keys not
handled by a case reach the streams table only while the Streams tab is
active. -/
def ItemDetailModel.update (now : Nat) (m : ItemDetailModel) : Msg → ItemDetailModel × List Cmd
  | Msg.itemDetailRes d err =>
    let m1 := { m with loading := false }
    match err with
    | some e => ({ m1 with error := "Failed to fetch item details: " ++ e }, [])
    | none => ({ m1 with itemData := d, error := "" }, [])
  | Msg.itemStreamsRes s err =>
    match err with
    | some _ => (m, [])
    | none => (ItemDetailModel.updateStreamsTable { m with streams := s }, [])
  | Msg.refresh =>
    ({ m with lastUpdate := now },
     [Cmd.fetchItemDetail m.itemID, Cmd.fetchItemStreams m.itemID, Cmd.tick 30 Msg.refresh])
  | Msg.key k =>
    if k = "tab" then ({ m with activeTab := (m.activeTab + 1) % 3 }, [])
    else if k = "shift+tab" then ({ m with activeTab := (m.activeTab - 1 + 3) % 3 }, [])
    else if k = "r" then
      ({ m with loading := true }, [Cmd.fetchItemDetail m.itemID, Cmd.fetchItemStreams m.itemID])
    else if k = "1" then ({ m with activeTab := 0 }, [])
    else if k = "2" then ({ m with activeTab := 1 }, [])
    else if k = "3" then ({ m with activeTab := 2 }, [])
    else if m.activeTab = 1 then ({ m with streamsTable := m.streamsTable.update k }, [])
    else (m, [])
  | _ => (m, [])

/-- `renderDetailsTab` (item_detail.go lines 288-336), field lines joined. -/
def ItemDetailModel.renderDetailsTab (m : ItemDetailModel) : String :=
  match m.itemData with
  | none => "No item data available."
  | some item =>
    String.intercalate "\n"
      ["ID: " ++ getStringFromMap item "id" "",
       "Type: " ++ getStringFromMap item "type" "",
       "State: " ++ getStringFromMap item "state" "",
       "Year: " ++ getStringFromMap item "year" ""]

/-- `ItemDetailModel.renderItemDetail` (item_detail.go lines 215-253). -/
def ItemDetailModel.renderItemDetail (m : ItemDetailModel) : String :=
  let title :=
    match m.itemData with
    | some item =>
      let t := getStringFromMap item "title" ""
      if t ≠ "" then t else "Item Details"
    | none => "Item Details"
  let content :=
    if m.activeTab = 0 then m.renderDetailsTab
    else if m.activeTab = 1 then
      match m.streams with
      | none => "No streams data available."
      | some _ => m.streamsTable.view
    else "Available Actions"
  String.intercalate "\n" [title, content]

/-- `ItemDetailModel.View` (item_detail.go lines 181-191). -/
def ItemDetailModel.view (m : ItemDetailModel) : String :=
  if m.loading then "Loading item details..."
  else if m.error ≠ "" then "Error: " ++ m.error ++ "\n\nPress r to refresh"
  else m.renderItemDetail

/-- Dashboard screen state (second document of src/pkg/models/scraping.go,
lines 106-122, `DashboardModel`): loading/error state and three nilable
payloads — statistics, the services map and the Real-Debrid user.
`lastUpdate` embeds the `time.Time` field, 0 standing for the zero time. -/
structure DashboardModel where
  width      : Int := 0
  height     : Int := 0
  loading    : Bool := false
  error      : String := ""
  stats      : Option StatsResponse := none
  services   : Option ServicesResponse := none
  rdUser     : Option RDUser := none
  lastUpdate : Nat := 0

/-- Constructor `NewDashboardModel` (scraping.go lines 125-131). -/
def NewDashboardModel : DashboardModel :=
  { loading := true }

/-- `DashboardModel.SetSize` (scraping.go lines 134-137). -/
def DashboardModel.setSize (m : DashboardModel) (width height : Int) : DashboardModel :=
  { m with width := width, height := height - 3 }

/-- `DashboardModel.Init` (scraping.go lines 140-147): fetch statistics,
services and the Real-Debrid user, and arm the 30-second auto-refresh
timer. -/
def DashboardModel.initCmds (_ : DashboardModel) : List Cmd :=
  [Cmd.fetchStats, Cmd.fetchServices, Cmd.fetchRDUser, Cmd.tick 30 Msg.refresh]

/-- `DashboardModel.Update` (scraping.go lines 150-186).  A stats result
clears loading and sets payload or error; a services result sets the error
without clearing loading on failure and does not clear the error on
success; a Real-Debrid user failure is ignored; a timer fire re-issues the
three fetches and re-arms the timer.  There is no key handler: every other
message, key presses included, leaves the model unchanged. -/
def DashboardModel.update (now : Nat) (m : DashboardModel) : Msg → DashboardModel × List Cmd
  | Msg.statsRes stats err =>
    let m1 := { m with loading := false }
    match err with
    | some e => ({ m1 with error := "Failed to fetch stats: " ++ e }, [])
    | none => ({ m1 with stats := stats, error := "" }, [])
  | Msg.servicesRes services err =>
    match err with
    | some e => ({ m with error := "Failed to fetch services: " ++ e }, [])
    | none => ({ m with services := services }, [])
  | Msg.rdUserRes rdUser err =>
    match err with
    | some _ => (m, [])
    | none => ({ m with rdUser := rdUser }, [])
  | Msg.refresh =>
    ({ m with lastUpdate := now },
     [Cmd.fetchStats, Cmd.fetchServices, Cmd.fetchRDUser, Cmd.tick 30 Msg.refresh])
  | _ => (m, [])

/-- Go map indexing `m.stats.States[key]` with its zero default. -/
def statsState (s : StatsResponse) (key : String) : Int :=
  (s.states.lookup key).getD 0

/-- `renderStats` (scraping.go lines 255-286), the formatted lines without
decoration. -/
def renderStatsSection (s : StatsResponse) : String :=
  "System Statistics\n"
    ++ "Total Items: " ++ toString s.totalItems ++ "\n"
    ++ "Movies: " ++ toString s.totalMovies ++ " | Shows: " ++ toString s.totalShows
    ++ " | Seasons: " ++ toString s.totalSeasons ++ " | Episodes: " ++ toString s.totalEpisodes ++ "\n"
    ++ "Symlinks: " ++ toString s.totalSymlinks ++ " | Incomplete: " ++ toString s.incompleteItems ++ "\n"
    ++ "States: Completed: " ++ toString (statsState s "Completed")
    ++ " | Downloaded: " ++ toString (statsState s "Downloaded")
    ++ " | Symlinked: " ++ toString (statsState s "Symlinked")
    ++ " | Failed: " ++ toString (statsState s "Failed")
    ++ " | Paused: " ++ toString (statsState s "Paused")
    ++ " | Requested: " ++ toString (statsState s "Requested")

/-- `renderServices` (scraping.go lines 289-320): one line per service with
its up/down marker. -/
def renderServicesSection (services : ServicesResponse) : String :=
  "Services Status\n"
    ++ String.intercalate "\n"
        (services.map (fun p => (if p.2 then "up " else "down ") ++ p.1))

/-- `renderRDUser` (scraping.go lines 323-349); premium seconds are
converted to days by Go integer division. -/
def renderRDUserSection (u : RDUser) : String :=
  "Real-Debrid User\n"
    ++ "Username: " ++ u.username ++ "\n"
    ++ "Type: " ++ u.usertype ++ "\n"
    ++ "Points: " ++ toString u.points ++ "\n"
    ++ "Premium Days Left: " ++ toString (u.premium / (24 * 60 * 60))

/-- `renderLastUpdate` (scraping.go lines 352-363): empty before the first
refresh tick. -/
def DashboardModel.renderLastUpdate (m : DashboardModel) : String :=
  if m.lastUpdate = 0 then "" else "Last updated: " ++ toString m.lastUpdate

/-- `renderDashboard` (scraping.go lines 223-252): the stats, services and
Real-Debrid sections each appear only when their payload is present. -/
def DashboardModel.renderDashboard (m : DashboardModel) : String :=
  let sections :=
    (match m.stats with | some s => [renderStatsSection s] | none => [])
    ++ (match m.services with | some sv => [renderServicesSection sv] | none => [])
    ++ (match m.rdUser with | some u => [renderRDUserSection u] | none => [])
    ++ [m.renderLastUpdate]
  String.intercalate "\n" sections

/-- `DashboardModel.View` (scraping.go lines 189-199): exactly one of
loading, error or content. -/
def DashboardModel.view (m : DashboardModel) : String :=
  if m.loading then "Loading dashboard..."
  else if m.error ≠ "" then "Error: " ++ m.error ++ "\n\nPress r to refresh"
  else m.renderDashboard

/-- Application state (part_004 `App`), owning the current screen and every
screen's state; `itemDetail` is the nilable pointer field. -/
structure App where
  currentScreen : Screen := Screen.dashboard
  width         : Int := 0
  height        : Int := 0
  dashboard     : DashboardModel := NewDashboardModel
  items         : ItemsModel := NewItemsModel
  itemDetail    : Option ItemDetailModel := none
  settings      : SettingsModel := NewSettingsModel
  logs          : LogsModel := NewLogsModel
  help          : HelpModel := {}
  showHelp      : Bool := false
  showConfirm   : Bool := false
  lastError     : String := ""

/-- Constructor `NewApp` (part_004 lines 156-177): Dashboard active, all
screen models freshly built. -/
def NewApp : App := {}

/-- `App.Init` (part_004 lines 180-185): dashboard init plus entering the
alternate screen. -/
def App.initCmds (a : App) : List Cmd :=
  a.dashboard.initCmds ++ [Cmd.enterAltScreen]

/-- Forwarding of a message to the active screen (part_004 lines 240-262);
the help screen's update is a no-op and a nil item-detail model is skipped. -/
def App.forward (now : Nat) (a : App) (msg : Msg) : App × List Cmd :=
  match a.currentScreen with
  | Screen.dashboard =>
    let r := a.dashboard.update now msg
    ({ a with dashboard := r.1 }, r.2)
  | Screen.items =>
    let r := a.items.update now msg
    ({ a with items := r.1 }, r.2)
  | Screen.itemDetail =>
    match a.itemDetail with
    | some d =>
      let r := d.update now msg
      ({ a with itemDetail := some r.1 }, r.2)
    | none => (a, [])
  | Screen.settings =>
    let r := a.settings.update now msg
    ({ a with settings := r.1 }, r.2)
  | Screen.logs =>
    let r := a.logs.update msg
    ({ a with logs := r.1 }, r.2)
  | Screen.help => (a, [])

/-- `App.Update` (part_004 lines 188-265).  Priority order of the source: a
window resize updates every screen's layout and is then forwarded; the
escape key while the item detail screen is active returns to the item list;
the global key bindings (quit `q`/`ctrl+c`, screen switches `d` `m` `s` `l`,
help `?`) short-circuit — a screen switch re-runs the target screen's
`Init`; a navigate-to-detail message builds a fresh `ItemDetailModel`;
everything else is forwarded to the active screen. -/
def App.update (now : Nat) (a : App) (msg : Msg) : App × List Cmd :=
  match msg with
  | Msg.window w h =>
    let a1 := { a with width := w, height := h,
                       dashboard := a.dashboard.setSize w h,
                       items := a.items.setSize w h,
                       settings := a.settings.setSize w h,
                       logs := a.logs.setSize w h,
                       help := a.help.setSize w h }
    a1.forward now msg
  | Msg.key k =>
    if k = "esc" ∧ a.currentScreen = Screen.itemDetail then
      ({ a with currentScreen := Screen.items }, [])
    else if k = "q" ∨ k = "ctrl+c" then
      (a, [Cmd.quitApp])
    else if k = "d" then
      ({ a with currentScreen := Screen.dashboard }, a.dashboard.initCmds)
    else if k = "m" then
      ({ a with currentScreen := Screen.items }, a.items.initCmds)
    else if k = "s" then
      ({ a with currentScreen := Screen.settings }, a.settings.initCmds)
    else if k = "l" then
      ({ a with currentScreen := Screen.logs }, a.logs.initCmds)
    else if k = "?" then
      ({ a with currentScreen := Screen.help }, [])
    else
      a.forward now msg
  | Msg.showItemDetail itemID =>
    let d := (NewItemDetailModel itemID).setSize a.width a.height
    ({ a with itemDetail := some d, currentScreen := Screen.itemDetail }, d.initCmds)
  | _ => a.forward now msg

/-- `App.renderNavBar` (part_004 lines 308-343): a tab per screen, the item
detail tab only while active; styling dropped. -/
def App.renderNavBar (a : App) : String :=
  let tabs := [(Screen.dashboard, "Dashboard"), (Screen.items, "Media"),
               (Screen.itemDetail, "Detail"), (Screen.settings, "Settings"),
               (Screen.logs, "Logs"), (Screen.help, "Help")]
  String.intercalate " "
    ((tabs.filter (fun t => t.1 ≠ Screen.itemDetail ∨ a.currentScreen = Screen.itemDetail)).map
      (fun t => if t.1 = a.currentScreen then "[" ++ t.2 ++ "]" else t.2))

/-- `App.View` (part_004 lines 268-305): the placeholder before the first
resize, then the navigation bar joined with the active screen's view; a nil
item-detail model renders a fallback line.  The result is `none` exactly
when a Go panic could occur in the view path. -/
def App.view (a : App) : Option String :=
  if a.width = 0 ∨ a.height = 0 then some "Loading..."
  else
    let content : Option String :=
      match a.currentScreen with
      | Screen.dashboard => some a.dashboard.view
      | Screen.items => some a.items.view
      | Screen.itemDetail =>
        match a.itemDetail with
        | some d => some d.view
        | none => some "Item detail not available"
      | Screen.settings => a.settings.view
      | Screen.logs => some a.logs.view
      | Screen.help => some a.help.view
    match content with
    | none => none
    | some c => some (a.renderNavBar ++ "\n" ++ c)

/-- Fold a timed message sequence through `App.update` (each entry is the
wall clock at delivery and the message). -/
def App.applyMsgs (a : App) : List (Nat × Msg) → App
  | [] => a
  | tm :: rest => App.applyMsgs (App.update tm.1 a tm.2).1 rest

/-- Events screen state (part_003 `EventsModel`). -/
structure EventsModel where
  width       : Int := 0
  height      : Int := 0
  loading     : Bool := false
  error       : String := ""
  events      : List Event := []
  eventsTable : TableW := {}
  maxEvents   : Nat := 100
  streaming   : Bool := false
  lastUpdate  : Nat := 0

/-- Constructor `NewEventsModel` (part_003 lines 235-270): keeps the last
100 events; the delivery channel is created with capacity 50. -/
def NewEventsModel : EventsModel :=
  { maxEvents := 100, eventsTable := { height := 20 } }

/-- Capacity of the event delivery channel, from
`make(chan models.Event, 50)` in `NewEventsModel` (part_003 line 268). -/
def eventChanCap : Nat := 50

/-- `EventsModel.addEvent` (part_003 lines 398-408): newest first, trimmed
to `maxEvents`. -/
def EventsModel.addEvent (now : Nat) (m : EventsModel) (e : Event) : EventsModel :=
  { m with events := (e :: m.events).take m.maxEvents, lastUpdate := now }

/-- One table row of `updateEventsTable` (part_003 lines 414-449); the
timestamp re-formatting is display-only and abstracted. -/
def eventRow (e : Event) : List String :=
  let eventType :=
    if e.type.toList.length > 12 then String.mk (e.type.toList.take 12) ++ "..." else e.type
  let msg0 := if e.message = "" then "No message" else e.message
  let message :=
    if msg0.toList.length > 47 then String.mk (msg0.toList.take 47) ++ "..." else msg0
  [e.timestamp, eventType, message]

/-- `EventsModel.updateEventsTable` (part_003 lines 411-453). -/
def EventsModel.updateEventsTable (m : EventsModel) : EventsModel :=
  { m with eventsTable := { m.eventsTable with rows := m.events.map eventRow } }

/-- `EventsModel.Init` (part_003 lines 282-287). -/
def EventsModel.initCmds (_ : EventsModel) : List Cmd :=
  [Cmd.startStreaming, Cmd.listenForEvents]

/-- `EventsModel.Update` (part_003 lines 290-341).  An `eventsErrorMsg`
records the error, marks streaming stopped, and schedules a 5-second timer
whose firing synthesizes the `r` key, which restarts streaming. -/
def EventsModel.update (now : Nat) (m : EventsModel) : Msg → EventsModel × List Cmd
  | Msg.eventArrived e =>
    (EventsModel.updateEventsTable (m.addEvent now e), [])
  | Msg.eventsError err =>
    ({ m with error := "Event streaming error: " ++ err, streaming := false },
     [Cmd.tick 5 (Msg.key "r")])
  | Msg.key k =>
    if k = "r" then
      ({ m with error := "" }, [Cmd.startStreaming, Cmd.listenForEvents])
    else if k = "c" then
      (EventsModel.updateEventsTable { m with events := [] }, [])
    else if k = "s" then
      if m.streaming then
        ({ m with streaming := false, eventsTable := m.eventsTable.update k }, [])
      else (m, [Cmd.startStreaming, Cmd.listenForEvents])
    else ({ m with eventsTable := m.eventsTable.update k }, [])
  | _ => (m, [])

/-- Embedding of `EventsModel.startEventStreaming` (part_003 lines 455-478)
together with its goroutine's error handling: `streamErr` is the error
`Client.StreamEventsSSE` eventually returns (`none` for a clean return) and
`cancelled` is whether the context is done at that point.  The returned pair
is the model-field effect and the message, if any, that this path delivers
back into the loop.  The command itself returns a nil message, and the
goroutine on a stream error only flips `streaming` back to false — the
source's own comment reads "This would need to be handled differently in a
real implementation". -/
def startEventStreamingRun (m : EventsModel) (streamErr : Option String) (cancelled : Bool) :
    EventsModel × Option Msg :=
  let m1 := { m with streaming := true }
  match streamErr with
  | none => (m1, none)
  | some _ => if cancelled then (m1, none) else ({ m1 with streaming := false }, none)

/-- State of the bounded delivery channel between the stream reader and the
events screen: the events the reader still has to hand over (in decode
order), the channel buffer (FIFO), and the events the consumer has taken. -/
structure ChanState where
  toSend   : List Event
  buffer   : List Event
  received : List Event

/-- Interleaving semantics of the Go channel: the producer's
`select \x7b case eventChan <- event: ... \x7d` in `Client.StreamEventsSSE`
(part_005 lines 939-944) has no default branch, so a send is only possible
while the buffer holds fewer than `eventChanCap` events — a full buffer
blocks the read loop, it never drops; the consumer takes the oldest
buffered event. -/
inductive ChanStep : ChanState → ChanState → Prop
  | send (e : Event) (rest : List Event) (s : ChanState) :
      s.toSend = e :: rest → s.buffer.length < eventChanCap →
      ChanStep s { toSend := rest, buffer := s.buffer ++ [e], received := s.received }
  | recv (e : Event) (rest : List Event) (s : ChanState) :
      s.buffer = e :: rest →
      ChanStep s { toSend := s.toSend, buffer := rest, received := s.received ++ [e] }

/-- Initial channel state for one streamed response body: the reader will
deliver exactly the events its line loop decodes. -/
def chanInit (lines : List String) : ChanState :=
  { toSend := streamEventsSSE lines, buffer := [], received := [] }

/-- Reachability under any interleaving of producer and consumer steps. -/
def ChanReachable (lines : List String) (s : ChanState) : Prop :=
  Relation.ReflTransGen ChanStep (chanInit lines) s

/-
Theorems.  One theorem per claim of the specification check, preceded by
helper lemmas where needed.
-/

/-- C5: the stream parser decodes exactly one event from each `data: ` line
whose JSON payload decodes, ignores every other line (comments, keep-alives,
blank lines) without error, and on a `data: ` line whose payload fails to
decode skips just that line and continues — including the spec's concrete
vectors: a valid `data:` line followed by a keep-alive comment yields
exactly the one decoded event, and `data: not-json` yields no event while a
following valid `data:` line still decodes. -/
theorem streamEventsSSE_spec :
    (∀ (line : String) (rest : List String) (e : Event),
        goHasPre line "data: " = true →
        decodeEvent (goTrimPre line "data: ") = some e →
        streamEventsSSE (line :: rest) = e :: streamEventsSSE rest) ∧
    (∀ (line : String) (rest : List String),
        goHasPre line "data: " = true →
        decodeEvent (goTrimPre line "data: ") = none →
        streamEventsSSE (line :: rest) = streamEventsSSE rest) ∧
    (∀ (line : String) (rest : List String),
        goHasPre line "data: " = false →
        streamEventsSSE (line :: rest) = streamEventsSSE rest) ∧
    streamEventsSSE
        ["data: \x7b\"type\":\"x\",\"timestamp\":\"t\",\"data\":\x7b\x7d\x7d", ": keep-alive"]
      = [{ type := "x", timestamp := "t", data := [], message := "" }] ∧
    streamEventsSSE
        ["data: not-json", "data: \x7b\"type\":\"x\",\"timestamp\":\"t\",\"data\":\x7b\x7d\x7d"]
      = [{ type := "x", timestamp := "t", data := [], message := "" }] := by
  refine ⟨?_, ?_, ?_, rfl, rfl⟩ <;> intros <;> simp [streamEventsSSE, *]

/-- Witness for the conditional parts of the C5 theorem at concrete lines. -/
theorem streamEventsSSE_spec_witness :
    streamEventsSSE ["data: not-json", ": keep-alive"] = streamEventsSSE [": keep-alive"] ∧
    streamEventsSSE [": keep-alive"] = streamEventsSSE [] :=
  ⟨streamEventsSSE_spec.2.1 "data: not-json" [": keep-alive"] rfl rfl,
   streamEventsSSE_spec.2.2.1 ": keep-alive" [] rfl⟩

/-- C4: under every interleaving of the stream reader and the consumer, the
delivery channel's buffer never holds more than its capacity of 50 events,
and no event is dropped or reordered: the consumed events, then the
buffered events, then the not-yet-sent events always recompose exactly the
decoded event sequence of the stream.  A full buffer admits no `send` step,
so the producer blocks rather than dropping. -/
theorem eventChan_bounded_no_drop (lines : List String) (s : ChanState)
    (h : ChanReachable lines s) :
    s.buffer.length ≤ eventChanCap ∧
    s.received ++ s.buffer ++ s.toSend = streamEventsSSE lines := by
  induction h with
  | refl => simp [chanInit]
  | tail h1 hstep ih =>
    obtain ⟨ihb, ihe⟩ := ih
    cases hstep with
    | send e rest _ hts hlen =>
      refine ⟨by simpa using hlen, ?_⟩
      rw [← ihe, hts]
      simp
    | recv e rest _ hbuf =>
      refine ⟨?_, ?_⟩
      · have hb2 : (e :: rest).length ≤ eventChanCap := hbuf ▸ ihb
        simp only [List.length_cons] at hb2
        simpa using Nat.le_of_succ_le hb2
      · rw [← ihe, hbuf]
        simp

/-- Witness for C4 at a concrete reachable state: after the reader sends
the one decoded event of a concrete stream, the state with that event
buffered satisfies the bound and the no-drop equation. -/
theorem eventChan_bounded_no_drop_witness :
    ({ toSend := [], buffer := [{ type := "x", timestamp := "t" }],
       received := [] } : ChanState).buffer.length ≤ eventChanCap ∧
    ([] : List Event) ++ [({ type := "x", timestamp := "t" } : Event)] ++ [] =
      streamEventsSSE ["data: \x7b\"type\":\"x\",\"timestamp\":\"t\",\"data\":\x7b\x7d\x7d"] :=
  eventChan_bounded_no_drop
    ["data: \x7b\"type\":\"x\",\"timestamp\":\"t\",\"data\":\x7b\x7d\x7d"]
    { toSend := [], buffer := [{ type := "x", timestamp := "t" }], received := [] }
    (Relation.ReflTransGen.tail Relation.ReflTransGen.refl
      (ChanStep.send { type := "x", timestamp := "t" } [] _ rfl (by decide)))

/-- C6: for every auto-refreshing screen — item list, item detail, settings
and dashboard — handling a timer-fired message emits exactly the operations
of that screen's init: its fetch operations plus exactly one re-armed timer
of the same period (30s for item list, item detail and dashboard, 60s for
settings), and no other async operation. -/
theorem refresh_rearms_timer_and_refetches (now : Nat)
    (mi : ItemsModel) (md : ItemDetailModel) (ms : SettingsModel) (mdash : DashboardModel) :
    ((mi.update now Msg.refresh).2 = mi.initCmds ∧
      (mi.update now Msg.refresh).2.filter Cmd.isTick = [Cmd.tick 30 Msg.refresh]) ∧
    ((md.update now Msg.refresh).2 = md.initCmds ∧
      (md.update now Msg.refresh).2.filter Cmd.isTick = [Cmd.tick 30 Msg.refresh]) ∧
    ((ms.update now Msg.refresh).2 = ms.initCmds ∧
      (ms.update now Msg.refresh).2.filter Cmd.isTick = [Cmd.tick 60 Msg.refresh]) ∧
    ((mdash.update now Msg.refresh).2 = mdash.initCmds ∧
      (mdash.update now Msg.refresh).2.filter Cmd.isTick = [Cmd.tick 30 Msg.refresh]) :=
  ⟨⟨rfl, rfl⟩, ⟨rfl, rfl⟩, ⟨rfl, rfl⟩, ⟨rfl, rfl⟩⟩

/-- C8: with the item list in Browsing mode, a filter-by-state change (`f`)
or a sort-order change (`s`) resets the current page to 1 and emits exactly
one async operation — an immediate fetch at the updated parameters, with no
debounce and no timer. -/
theorem filter_sort_reset_page_one_fetch (now : Nat) (m : ItemsModel)
    (h : m.showSearch = false) :
    ((m.update now (Msg.key "f")).1.currentPage = 1 ∧
      (m.update now (Msg.key "f")).2 =
        [Cmd.fetchItems (m.update now (Msg.key "f")).1.fetchItemsParams]) ∧
    ((m.update now (Msg.key "s")).1.currentPage = 1 ∧
      (m.update now (Msg.key "s")).2 =
        [Cmd.fetchItems (m.update now (Msg.key "s")).1.fetchItemsParams]) := by
  simp [ItemsModel.update, ItemsModel.fetchItems, h, digitVal]

/-- Witness for C8 at the fresh item list model. -/
theorem filter_sort_reset_page_one_fetch_witness :
    ((NewItemsModel.update 0 (Msg.key "f")).1.currentPage = 1 ∧
      (NewItemsModel.update 0 (Msg.key "f")).2 =
        [Cmd.fetchItems (NewItemsModel.update 0 (Msg.key "f")).1.fetchItemsParams]) ∧
    ((NewItemsModel.update 0 (Msg.key "s")).1.currentPage = 1 ∧
      (NewItemsModel.update 0 (Msg.key "s")).2 =
        [Cmd.fetchItems (NewItemsModel.update 0 (Msg.key "s")).1.fetchItemsParams]) :=
  filter_sort_reset_page_one_fetch 0 NewItemsModel rfl

/-- C9: on the item list in Browsing mode with a loaded page, next-page at
the last known page and previous-page at page 1 leave the whole screen
state unchanged and emit no async operation, and a numeric direct-page-jump
key changes the page and fetches exactly when the requested page is at most
the total pages, and is otherwise a no-op. -/
theorem pagination_bounds (now : Nat) (m : ItemsModel) (r : ItemsResponse)
    (hs : m.showSearch = false) (hi : m.items = some r) :
    (m.currentPage = r.totalPages →
      m.update now (Msg.key "n") = (m, []) ∧ m.update now (Msg.key "right") = (m, [])) ∧
    (m.currentPage = 1 →
      m.update now (Msg.key "p") = (m, []) ∧ m.update now (Msg.key "left") = (m, [])) ∧
    (∀ k page, k ∈ ["1", "2", "3", "4", "5", "6", "7", "8", "9"] →
      digitVal k = some page →
      (page ≤ r.totalPages →
        (m.update now (Msg.key k)).1.currentPage = page ∧
        (m.update now (Msg.key k)).2 =
          [Cmd.fetchItems (m.update now (Msg.key k)).1.fetchItemsParams]) ∧
      (¬ page ≤ r.totalPages →
        m.update now (Msg.key k) = (m, []))) := by
  refine ⟨fun hp => ⟨?_, ?_⟩, fun hp => ⟨?_, ?_⟩, fun k page hk => ?_⟩
  · simp [ItemsModel.update, hs, hi, hp, TableW.update]
    rw [← hp, ← hi, ← hs]
  · simp [ItemsModel.update, hs, hi, hp, TableW.update]
    rw [← hp, ← hi, ← hs]
  · simp [ItemsModel.update, hs, hi, hp, TableW.update]
    rw [← hp, ← hi, ← hs]
  · simp [ItemsModel.update, hs, hi, hp, TableW.update]
    rw [← hp, ← hi, ← hs]
  · fin_cases hk <;>
      (intro hpage
       simp only [digitVal, Option.some.injEq] at hpage
       subst hpage
       refine ⟨fun hcond => ?_, fun hcond => ?_⟩ <;>
         simp [ItemsModel.update, ItemsModel.fetchItems, hs, hi, digitVal, TableW.update, hcond] <;>
         rw [← hi, ← hs])

/-- Concrete item page for witnesses: one item, one total page. -/
def sampleItemsResp : ItemsResponse :=
  { success := true
    items := [[("id", Json.jstr "42"), ("title", Json.jstr "Matrix")]]
    page := 1, limit := 50, totalItems := 1, totalPages := 1 }

/-- Concrete loaded item list model for witnesses. -/
def sampleItemsModel : ItemsModel :=
  { NewItemsModel with loading := false, items := some sampleItemsResp }

/-- Witness for C9 at the concrete loaded model (page 1 of 1). -/
theorem pagination_bounds_witness :
    sampleItemsModel.update 0 (Msg.key "n") = (sampleItemsModel, []) ∧
    sampleItemsModel.update 0 (Msg.key "p") = (sampleItemsModel, []) :=
  ⟨((pagination_bounds 0 sampleItemsModel sampleItemsResp rfl rfl).1 rfl).1,
   ((pagination_bounds 0 sampleItemsModel sampleItemsResp rfl rfl).2.1 rfl).1⟩

/-- Concrete application state with the item list active and in Searching
mode, for the C1 counterexample and witness. -/
def searchingApp : App :=
  { currentScreen := Screen.items
    items := { NewItemsModel with loading := false, showSearch := true } }

/-- C1 counterexample: with the item list screen active and Searching, the
key `d` — neither submit nor cancel — is not routed to the search widget:
the global binding fires, the active screen changes to the dashboard and
the dashboard's init operations are emitted, refuting the claim that no key
other than enter and esc changes the active screen or triggers a global
binding while Searching. -/
theorem searching_global_key_switches_screen :
    searchingApp.currentScreen = Screen.items ∧
    searchingApp.items.showSearch = true ∧
    (App.update 0 searchingApp (Msg.key "d")).1.currentScreen = Screen.dashboard ∧
    (App.update 0 searchingApp (Msg.key "d")).2 =
      [Cmd.fetchStats, Cmd.fetchServices, Cmd.fetchRDUser, Cmd.tick 30 Msg.refresh] :=
  ⟨rfl, rfl, rfl, rfl⟩

/-- C1 (amended): while the item list screen is Searching, every key press
other than the application's global bindings (`q`, `ctrl+c`, `d`, `m`, `s`,
`l`, `?`) keeps the item list active, and if it is neither submit (enter)
nor cancel (esc) it only feeds the search text-entry widget and emits no
async operation; the global bindings are intercepted by the application
loop before the screen sees the key. -/
theorem searching_routes_keys_to_input (now : Nat) (a : App) (k : String)
    (hscr : a.currentScreen = Screen.items) (hsearch : a.items.showSearch = true)
    (hk : k ∉ ["q", "ctrl+c", "d", "m", "s", "l", "?"]) :
    (App.update now a (Msg.key k)).1.currentScreen = Screen.items ∧
    (k ≠ "enter" → k ≠ "esc" →
      App.update now a (Msg.key k) =
        ({ a with items := { a.items with searchInput := a.items.searchInput.update k } }, [])) := by
  simp only [List.mem_cons, List.mem_singleton, not_or] at hk
  obtain ⟨hq, hqc, hd, hm, hs2, hl, hhelp⟩ := hk
  constructor
  · simp [App.update, App.forward, hscr, hq, hqc, hd, hm, hs2, hl, hhelp,
          ItemsModel.update, hsearch]
  · intro he hesc
    simp [App.update, App.forward, hscr, hq, hqc, hd, hm, hs2, hl, hhelp,
          ItemsModel.update, hsearch, he, hesc]

/-- Witness for C1 (amended): while Searching, the character key `x` feeds
the search input and changes nothing else. -/
theorem searching_routes_keys_to_input_witness :
    (App.update 0 searchingApp (Msg.key "x")).1.currentScreen = Screen.items ∧
    App.update 0 searchingApp (Msg.key "x") =
      ({ searchingApp with items := { searchingApp.items with
          searchInput := searchingApp.items.searchInput.update "x" } }, []) :=
  ⟨(searching_routes_keys_to_input 0 searchingApp "x" rfl rfl (by decide)).1,
   (searching_routes_keys_to_input 0 searchingApp "x" rfl rfl (by decide)).2
     (by decide) (by decide)⟩

/-- Concrete application state whose item list already holds a fetched
page, for the C2 counterexample. -/
def preloadedApp : App :=
  { currentScreen := Screen.dashboard
    items := { NewItemsModel with loading := false, items := some sampleItemsResp } }

/-- C2 counterexample: re-activating the item list with `m` from the
dashboard, with a page already fetched, keeps the fetched state but the
loop emits the item list's init fetch operations again — refuting the claim
that switching back to a screen emits no new fetch operations. -/
theorem switch_back_emits_fetches :
    preloadedApp.items.items = some sampleItemsResp ∧
    (App.update 0 preloadedApp (Msg.key "m")).1.currentScreen = Screen.items ∧
    (App.update 0 preloadedApp (Msg.key "m")).1.items.items = some sampleItemsResp ∧
    (App.update 0 preloadedApp (Msg.key "m")).2 =
      [Cmd.fetchItems { limit := some 50, page := some 1, sort := some SortOrder.dateDesc },
       Cmd.fetchStates, Cmd.tick 30 Msg.refresh] :=
  ⟨rfl, rfl, rfl, rfl⟩

/-- C2 (amended): a screen-switch key (`d`, `m`, `s`, `l`) retains every
screen's previously fetched state — the whole application state is
unchanged by the switch except the active-screen field — but the loop
re-runs the re-entered screen's `Init` on every re-activation rather than
emitting no operations: the dashboard re-issues its three fetches plus the
30-second timer, the item list its two fetches plus the 30-second timer,
settings its fetch plus the 60-second timer, and logs its single fetch
(the logs screen's init arms no timer). -/
theorem switch_retains_state_but_reinits (now : Nat) (a : App) :
    (App.update now a (Msg.key "d") =
        ({ a with currentScreen := Screen.dashboard }, a.dashboard.initCmds) ∧
      a.dashboard.initCmds =
        [Cmd.fetchStats, Cmd.fetchServices, Cmd.fetchRDUser, Cmd.tick 30 Msg.refresh]) ∧
    (App.update now a (Msg.key "m") =
        ({ a with currentScreen := Screen.items }, a.items.initCmds) ∧
      a.items.initCmds = [a.items.fetchItems, Cmd.fetchStates, Cmd.tick 30 Msg.refresh]) ∧
    (App.update now a (Msg.key "s") =
        ({ a with currentScreen := Screen.settings }, a.settings.initCmds) ∧
      a.settings.initCmds = [Cmd.fetchSettings, Cmd.tick 60 Msg.refresh]) ∧
    (App.update now a (Msg.key "l") =
        ({ a with currentScreen := Screen.logs }, a.logs.initCmds) ∧
      a.logs.initCmds = [Cmd.fetchLogs]) := by
  refine ⟨⟨?_, rfl⟩, ⟨?_, rfl⟩, ⟨?_, rfl⟩, ⟨?_, rfl⟩⟩ <;> simp [App.update]

/-- C3: evaluation at the failing input.  When the streaming call of the
events screen fails (`Client.StreamEventsSSE` returns an error), the
command-plus-goroutine path delivers no message back into the loop at all —
in particular never an `eventsErrorMsg` — it only flips the `streaming`
flag; yet the `eventsErrorMsg` handler, were the message ever produced,
does schedule the 5-second reconnect timer whose firing synthesizes the
restart key `r`, which re-issues the connect and listen operations. -/
theorem stream_error_not_delivered (now : Nat) (m : EventsModel)
    (err : String) (cancelled : Bool) :
    (startEventStreamingRun m (some err) cancelled).2 = none ∧
    (EventsModel.update now m (Msg.eventsError err)).2 = [Cmd.tick 5 (Msg.key "r")] ∧
    (EventsModel.update now m (Msg.key "r")).2 = [Cmd.startStreaming, Cmd.listenForEvents] := by
  refine ⟨?_, rfl, rfl⟩
  cases cancelled <;> rfl

/-- C7: navigation round trip.  Selecting the row with item id `x` on the
item list emits the navigate-to-detail message; handling that message makes
the item detail screen active with a freshly built model for `x`
(independently of any previous detail state, so the old state is discarded
and a later re-entry starts from scratch) and emits exactly the detail
screen's init fetches; pressing escape while the detail screen is active
returns to the item list with no async operation. -/
theorem navigate_detail_roundtrip
    (now : Nat) (a b : App) (m : ItemsModel) (r : ItemsResponse) (x : String)
    (hs : m.showSearch = false) (hi : m.items = some r)
    (hlen : 0 < r.items.length) (hcur : m.table.cursor < r.items.length)
    (hid : getStringFromMap (r.items.getD m.table.cursor []) "id" "" = x) (hx : x ≠ "")
    (hb : b.currentScreen = Screen.itemDetail) :
    ItemsModel.update now m (Msg.key "enter") = (m, [Cmd.navigateDetail x]) ∧
    App.update now a (Msg.showItemDetail x) =
      ({ a with itemDetail := some ((NewItemDetailModel x).setSize a.width a.height),
                currentScreen := Screen.itemDetail },
       ((NewItemDetailModel x).setSize a.width a.height).initCmds) ∧
    ((NewItemDetailModel x).setSize a.width a.height).initCmds =
      [Cmd.fetchItemDetail x, Cmd.fetchItemStreams x, Cmd.tick 30 Msg.refresh] ∧
    ((NewItemDetailModel x).setSize a.width a.height).loading = true ∧
    ((NewItemDetailModel x).setSize a.width a.height).itemData = none ∧
    App.update now b (Msg.key "esc") = ({ b with currentScreen := Screen.items }, []) := by
  refine ⟨?_, rfl, rfl, rfl, rfl, ?_⟩
  · rw [List.getD_eq_getElem?_getD, List.getElem?_eq_getElem hcur, Option.getD_some] at hid
    simp [ItemsModel.update, hs, hi, hlen, hcur, hid, hx, digitVal]
  · simp [App.update, hb]

/-- Concrete application state with the item detail screen active, for the
C7 witness. -/
def detailApp : App :=
  { currentScreen := Screen.itemDetail
    itemDetail := some (NewItemDetailModel "42") }

/-- Witness for C7: the concrete loaded list emits the navigate message for
id `42`, and escape from the concrete detail state returns to the list. -/
theorem navigate_detail_roundtrip_witness :
    ItemsModel.update 0 sampleItemsModel (Msg.key "enter") =
      (sampleItemsModel, [Cmd.navigateDetail "42"]) ∧
    App.update 0 detailApp (Msg.key "esc") =
      ({ detailApp with currentScreen := Screen.items }, []) :=
  ⟨(navigate_detail_roundtrip 0 NewApp detailApp sampleItemsModel sampleItemsResp "42"
      rfl rfl (by decide) (by decide) rfl (by decide) rfl).1,
   (navigate_detail_roundtrip 0 NewApp detailApp sampleItemsModel sampleItemsResp "42"
      rfl rfl (by decide) (by decide) rfl (by decide) rfl).2.2.2.2.2⟩

/-- One settings-overview step keeps the render defined: the category
name is non-empty, so the Go slice `category[:1]` is in range. -/
theorem settingsOverviewStep_isSome (sm : List (String × Json)) (c : String)
    (acc : Option (List String)) (hc : 0 < c.toList.length) (ha : acc.isSome = true) :
    (settingsOverviewStep sm c acc).isSome = true := by
  unfold settingsOverviewStep
  cases acc with
  | none => simp at ha
  | some lines =>
    cases hl : sm.lookup c with
    | none => simp
    | some v =>
      cases v <;> simp [goSlice] <;>
        (simp at hc
         have h1 : 1 ≤ c.length := hc
         simp [h1])

/-- The whole settings overview is always defined: every category literal
is non-empty. -/
theorem settingsOverview_isSome (sm : List (String × Json)) :
    (settingsOverview sm).isSome = true := by
  unfold settingsOverview settingsCategories
  simp only [List.foldr_cons, List.foldr_nil]
  apply settingsOverviewStep_isSome _ _ _ (by decide)
  apply settingsOverviewStep_isSome _ _ _ (by decide)
  apply settingsOverviewStep_isSome _ _ _ (by decide)
  apply settingsOverviewStep_isSome _ _ _ (by decide)
  apply settingsOverviewStep_isSome _ _ _ (by decide)
  rfl

/-- The settings screen always renders. -/
theorem settingsView_isSome (m : SettingsModel) : (SettingsModel.view m).isSome = true := by
  unfold SettingsModel.view SettingsModel.renderSettings
  split
  · rfl
  · split
    · rfl
    · cases m.settings with
      | none => rfl
      | some v =>
        cases v
        case jobj sm =>
          have h := settingsOverview_isSome sm
          cases ho : settingsOverview sm with
          | none => rw [ho] at h; simp at h
          | some lines => simp [ho]
        all_goals rfl

/-- Every application state renders: the loading and error branches come
before any payload access, absent payloads have explicit fallbacks, and
every partial string operation on the view path is in range. -/
theorem appView_isSome (a : App) : (App.view a).isSome = true := by
  unfold App.view
  split
  · rfl
  · cases a.currentScreen with
    | settings =>
      have h := settingsView_isSome a.settings
      cases hv : SettingsModel.view a.settings with
      | none => rw [hv] at h; simp at h
      | some c => simp [hv]
    | itemDetail => cases a.itemDetail <;> rfl
    | dashboard => rfl
    | items => rfl
    | logs => rfl
    | help => rfl

/-- C10: for every sequence of messages applied through the application's
update function from the fresh application state, the render function on
the resulting state never panics — it produces a frame even when domain
payloads are empty or uninitialized, since the loading and error renderings
do not touch the payload. -/
theorem render_never_panics (msgs : List (Nat × Msg)) :
    (App.view (App.applyMsgs NewApp msgs)).isSome = true :=
  appView_isSome _

end RivenTUI
